import Mathlib

/-!
Shallow embedding of the Ertis generic REST framework core:
`src/generics/api.py` (auth gate + generic CRUD endpoint generation) and
`src/custom_api/tokens.py` (token create / refresh endpoints).

External collaborators (the json library, jsonschema, the security manager,
the token service, query helpers and the resource services) are parameters
gathered in an `Env` structure; the handlers under verification are the
Python functions of the two source files, translated line by line.
-/

namespace Ertis

/-- JSON values, as produced by the external json library
(`json.loads`) and consumed by the handlers. -/
inductive Json where
  | null : Json
  | bool (b : Bool) : Json
  | num (n : Int) : Json
  | str (s : String) : Json
  | arr (xs : List Json) : Json
  | obj (kvs : List (String × Json)) : Json

/-- Python truthiness of a json-decoded value (`if not x`):
None, False, 0, empty string, empty list and empty dict are falsy. -/
def Json.truthy : Json → Bool
  | .null => false
  | .bool b => b
  | .num n => n != 0
  | .str s => !s.isEmpty
  | .arr xs => !xs.isEmpty
  | .obj kvs => !kvs.isEmpty

/-- The `ErtisError` exception as raised throughout the source: an exception record
carrying `err_code`, `err_msg`, `status_code` and an optional `context`
dict (modelled as an association list of json values). -/
structure ErtisError where
  err_code : String
  err_msg : String
  status_code : Nat
  context : List (String × Json) := []

/-- The identity resolved from a token by the external security manager
(owned by the identity store; opaque to this core). -/
structure User where
  id : String
  email : String

/-- Parsed query specification `where, select, limit, sort, skip`
returned by the external `query_helpers.parse`; opaque to this core,
it flows unchanged from `parse` into `resource_service.filter`. -/
structure QuerySpec where
  whereFilter : Json
  select : Json
  limit : Int
  sort : Json
  skip : Int

/-- Transient `{email, password}` credentials built by `create_token`. -/
structure Credentials where
  email : Json
  password : Json

/-- An inbound HTTP request as the handlers see it:
the Authorization header from `request.headers.get` and the raw `request.data`. -/
structure Request where
  authorization : Option String
  data : String

/-- A Flask `Response(body, mimetype=..., status=...)`.  `mimetype = none`
records a call site that passed no mimetype (the framework default applies). -/
structure Response where
  body : String
  mimetype : Option String
  status : Nat

/-- How a handler terminates abnormally: a raised `ErtisError`, or an
ordinary Python exception escaping the handler (unbound local read,
uncaught json decode error, missing attribute). -/
inductive HandlerError where
  | ertis (e : ErtisError) : HandlerError
  | nameError (var : String) : HandlerError
  | valueError (msg : String) : HandlerError
  | attributeError (msg : String) : HandlerError

/-- A delegate call into the resource service, with the arguments the
handler passes (the leading `app.generic_service` argument and keyword
names are not tracked; schemas and pipeline functions are opaque json). -/
inductive ServiceCall where
  | filter (q : QuerySpec) (resource_name : String) : ServiceCall
  | get (id : String) (resource_name : String) : ServiceCall
  | post (user : User) (data : String) (resource_name : String)
      (validate_by : Option Json) (pipeline : Option Json) : ServiceCall
  | put (user : User) (id : String) (data : String) (resource_name : String)
      (validate_by : Option Json) (pipeline : Option Json) : ServiceCall
  | delete (id : String) (resource_name : String) (pipeline : Option Json) : ServiceCall

/-- The user argument a delegate call carries, if any. -/
def ServiceCall.userArg : ServiceCall → Option User
  | .post u _ _ _ _ => some u
  | .put u _ _ _ _ _ => some u
  | _ => none

/-- Observable events of one handler invocation, in order: the call to the
auth gate (`ensure_token_provided`) and calls into the resource service. -/
inductive Event where
  | auth : Event
  | svc (c : ServiceCall) : Event

/-- External collaborators of the two source files, out of scope per the
spec: the json library, the security manager (`ErtisSecurityManager(db)`,
with `db` fixed), the token service, the query helpers and the
resource-specific service functions. -/
structure Env where
  json_loads : String → Except String Json
  json_dumps : Json → String
  load_user : Json → String → Bool → Except ErtisError User
  craft_token : Credentials → String → Nat → Except ErtisError String
  refresh_token_svc : User → String → Nat → String
  query_parse : Request → QuerySpec
  svc_filter : QuerySpec → String → String
  svc_get : String → String → String
  svc_post : User → String → String → Option Json → Option Json → String
  svc_put : User → String → String → String → Option Json → Option Json → String
  svc_delete : String → String → Option Json → String

/-- The serialized payload the resource service returns for a given
delegate call, under `env`. -/
def Env.svcResult (env : Env) : ServiceCall → String
  | .filter q rn => env.svc_filter q rn
  | .get i rn => env.svc_get i rn
  | .post u d rn v p => env.svc_post u d rn v p
  | .put u i d rn v p => env.svc_put u i d rn v p
  | .delete i rn p => env.svc_delete i rn p

/-- The relevant settings read by the handlers
(`self.settings[...]` / `settings[...]`). -/
structure Settings where
  application_secret : String
  verify_token : Bool
  api_version : String
  token_ttl : Nat

/-- Python `s.split(c)` with an explicit one-character separator:
splits at every occurrence, keeping empty pieces. -/
def pySplitChar (c : Char) : List Char → List (List Char)
  | [] => [[]]
  | a :: as =>
    let rest := pySplitChar c as
    if a = c then [] :: rest
    else
      match rest with
      | [] => [[a]]
      | g :: gs => (a :: g) :: gs

/-- Python `s.split(c)` on strings. -/
def pySplit (s : String) (c : Char) : List String :=
  (pySplitChar c s.data).map String.mk

/-- Python `obj.get(k)`: association lookup on a dict, returning `None`
when the key is absent; raises `AttributeError` on a non-dict value. -/
def pyGet (j : Json) (k : String) : Except HandlerError (Option Json) :=
  match j with
  | .obj kvs => .ok (kvs.lookup k)
  | _ => .error (.attributeError "get")

/-- The auth gate `ensure_token_provided` (arguments db, req, api_name,
secret, verify) of
`src/generics/api.py`.  Reads the `Authorization` header (Python
`if not auth_header` also fires on an empty string), splits it on the
space character — the source wraps the split in a try/except whose body
builds an `ErtisError` without raising it, dead code since `str.split`
cannot fail — raises a 401 unless the split has exactly two parts, and
otherwise passes the second part to `load_user` of the security manager. -/
def ensure_token_provided (env : Env) (req : Request) (api_name : String)
    (secret : String) (verify : Bool) : Except ErtisError User :=
  match req.authorization with
  | none =>
    .error { err_code := "errors.authorizationHeaderRequired",
             err_msg := "Authorization header is required for using this api<"
               ++ api_name ++ ">",
             status_code := 401 }
  | some auth_header =>
    if auth_header = "" then
      .error { err_code := "errors.authorizationHeaderRequired",
               err_msg := "Authorization header is required for using this api<"
                 ++ api_name ++ ">",
               status_code := 401 }
    else
      match pySplit auth_header ' ' with
      | [_scheme, token] => env.load_user (.str token) secret verify
      | _ =>
        .error { err_code := "errors.invalidBearerTokenUsage",
                 err_msg := "Bearer token usage is invalid",
                 status_code := 401 }

/-- The constructor configuration of `GenericErtisApi` (a Resource
Descriptor): endpoint root url, allowed methods, resource name, validation
schemas, pipeline functions and the anonymity flag.  (The source field for
the root url is the endpoint
prefix.) -/
structure Descriptor where
  endpoint_root : String
  methods : List String
  resource_name : String
  create_validation_schema : Option Json := none
  update_validation_schema : Option Json := none
  pipeline_functions : Option Json := none
  allow_to_anonymous : Bool := false

/-- The class-level dict `GenericErtisApi.STATUS_CODE_MAPPING`. -/
def STATUS_CODE_MAPPING : List (String × Nat) :=
  [("CREATE", 201), ("READ", 200), ("QUERY", 200),
   ("UPDATE", 200), ("DELETE", 204), ("DISTINCT", 200)]

/-- Dict lookup into `STATUS_CODE_MAPPING`; the handlers only use keys
present in the dict, so the 0 default is never reached. -/
def statusOf (k : String) : Nat :=
  (STATUS_CODE_MAPPING.lookup k).getD 0

/-- The url tuple of `GenericErtisApi.generate_urls`:
`(get_url, post_url, update_url, delete_url, query_url)`. -/
def generate_urls (d : Descriptor) : String × String × String × String × String :=
  (d.endpoint_root ++ "/<resource_id>",
   d.endpoint_root,
   d.endpoint_root ++ "/<resource_id>",
   d.endpoint_root ++ "/<resource_id>",
   d.endpoint_root ++ "/_query")

/-- The `query` handler registered when `QUERY` is among the methods:
auth gate unless anonymous, `query_helpers.parse(request)`, then
`resource_service.filter(...)` wrapped in a json 200 response.
Returns the ordered event trace together with the outcome. -/
def query (env : Env) (st : Settings) (d : Descriptor) (req : Request) :
    List Event × Except HandlerError Response :=
  let rest : List Event × Except HandlerError Response :=
    let q := env.query_parse req
    ([Event.svc (.filter q d.resource_name)],
     .ok { body := env.svc_filter q d.resource_name,
           mimetype := some "application/json",
           status := statusOf "QUERY" })
  if d.allow_to_anonymous then rest
  else
    match ensure_token_provided env req d.resource_name
        st.application_secret st.verify_token with
    | .error e => ([Event.auth], .error (.ertis e))
    | .ok _user => (Event.auth :: rest.1, rest.2)

/-- The `read` handler registered when `GET` is among the methods:
auth gate unless anonymous, then `resource_service.get(...)` wrapped in a
json 200 response. -/
def read (env : Env) (st : Settings) (d : Descriptor) (req : Request)
    (resource_id : String) : List Event × Except HandlerError Response :=
  let rest : List Event × Except HandlerError Response :=
    ([Event.svc (.get resource_id d.resource_name)],
     .ok { body := env.svc_get resource_id d.resource_name,
           mimetype := some "application/json",
           status := statusOf "READ" })
  if d.allow_to_anonymous then rest
  else
    match ensure_token_provided env req d.resource_name
        st.application_secret st.verify_token with
    | .error e => ([Event.auth], .error (.ertis e))
    | .ok _user => (Event.auth :: rest.1, rest.2)

/-- The `create` handler registered when `POST` is among the methods.
The Python local `user` is assigned only inside the `if not
allow_to_anonymous` branch; on the anonymous path the delegate call
evaluates the unassigned local and raises `UnboundLocalError` before the
resource service is reached.  Otherwise `resource_service.post(user,
data, ...)` is wrapped in a json 201 response. -/
def create (env : Env) (st : Settings) (d : Descriptor) (req : Request) :
    List Event × Except HandlerError Response :=
  if d.allow_to_anonymous then
    ([], .error (.nameError "user"))
  else
    match ensure_token_provided env req d.resource_name
        st.application_secret st.verify_token with
    | .error e => ([Event.auth], .error (.ertis e))
    | .ok user =>
      let data := req.data
      ([Event.auth,
        Event.svc (.post user data d.resource_name
          d.create_validation_schema d.pipeline_functions)],
       .ok { body := env.svc_post user data d.resource_name
               d.create_validation_schema d.pipeline_functions,
             mimetype := some "application/json",
             status := statusOf "CREATE" })

/-- The `update` handler registered when `PUT` is among the methods.
Same unbound-local behaviour as `create` on the anonymous path; otherwise
`resource_service.put(user, resource_id, data, ...)` wrapped in a json
200 response. -/
def update (env : Env) (st : Settings) (d : Descriptor) (req : Request)
    (resource_id : String) : List Event × Except HandlerError Response :=
  if d.allow_to_anonymous then
    ([], .error (.nameError "user"))
  else
    match ensure_token_provided env req d.resource_name
        st.application_secret st.verify_token with
    | .error e => ([Event.auth], .error (.ertis e))
    | .ok user =>
      let data := req.data
      ([Event.auth,
        Event.svc (.put user resource_id data d.resource_name
          d.update_validation_schema d.pipeline_functions)],
       .ok { body := env.svc_put user resource_id data d.resource_name
               d.update_validation_schema d.pipeline_functions,
             mimetype := some "application/json",
             status := statusOf "UPDATE" })

/-- The `delete` handler registered when `DELETE` is among the methods:
auth gate unless anonymous (its result is discarded, not bound to a
variable), then `resource_service.delete(resource_id, ...)` — called
without a user argument — wrapped in a 204 response whose `Response(...)`
call passes no mimetype. -/
def delete (env : Env) (st : Settings) (d : Descriptor) (req : Request)
    (resource_id : String) : List Event × Except HandlerError Response :=
  let rest : List Event × Except HandlerError Response :=
    ([Event.svc (.delete resource_id d.resource_name d.pipeline_functions)],
     .ok { body := env.svc_delete resource_id d.resource_name d.pipeline_functions,
           mimetype := none,
           status := statusOf "DELETE" })
  if d.allow_to_anonymous then rest
  else
    match ensure_token_provided env req d.resource_name
        st.application_secret st.verify_token with
    | .error e => ([Event.auth], .error (.ertis e))
    | .ok _user => (Event.auth :: rest.1, rest.2)

/-- The five generated endpoint kinds of `generate_endpoints`. -/
inductive MethodTag where
  | QUERY | GET | POST | PUT | DELETE
deriving DecidableEq

/-- Dispatch to the generated handler of each endpoint kind
(`resource_id` is ignored by the kinds whose route has no id segment). -/
def handle (tag : MethodTag) (env : Env) (st : Settings) (d : Descriptor)
    (req : Request) (resource_id : String) :
    List Event × Except HandlerError Response :=
  match tag with
  | .QUERY => query env st d req
  | .GET => read env st d req resource_id
  | .POST => create env st d req
  | .PUT => update env st d req resource_id
  | .DELETE => delete env st d req resource_id

/-- One route registration performed by `generate_endpoints`: the url
pattern given to `app.route`, the HTTP method of the `methods=[...]`
argument, and the endpoint name the `rename` decorator stamps on the
handler function. -/
structure Route where
  url : String
  http_method : String
  endpoint_name : String

/-- The route each endpoint kind registers for a descriptor
(`QUERY` is exposed as an HTTP POST on the `_query` url). -/
def tagRoute (d : Descriptor) : MethodTag → Route
  | .QUERY => ⟨d.endpoint_root ++ "/_query", "POST", d.resource_name ++ "_query"⟩
  | .GET => ⟨d.endpoint_root ++ "/<resource_id>", "GET", d.resource_name ++ "_read"⟩
  | .POST => ⟨d.endpoint_root, "POST", d.resource_name ++ "_create"⟩
  | .PUT => ⟨d.endpoint_root ++ "/<resource_id>", "PUT", d.resource_name ++ "_update"⟩
  | .DELETE => ⟨d.endpoint_root ++ "/<resource_id>", "DELETE", d.resource_name ++ "_delete"⟩

/-- The string key `generate_endpoints` tests against `self.methods`
for each endpoint kind. -/
def tagKey : MethodTag → String
  | .QUERY => "QUERY"
  | .GET => "GET"
  | .POST => "POST"
  | .PUT => "PUT"
  | .DELETE => "DELETE"

/-- The route registrations of `GenericErtisApi.generate_endpoints`,
viewed as the list of routes it
registers on the app, in source order: one guarded block per endpoint
kind, each registering its route exactly when its key is a member of
`self.methods`. -/
def generate_endpoints (d : Descriptor) : List Route :=
  (if "QUERY" ∈ d.methods then [tagRoute d .QUERY] else []) ++
  (if "GET" ∈ d.methods then [tagRoute d .GET] else []) ++
  (if "POST" ∈ d.methods then [tagRoute d .POST] else []) ++
  (if "PUT" ∈ d.methods then [tagRoute d .PUT] else []) ++
  (if "DELETE" ∈ d.methods then [tagRoute d .DELETE] else [])

/-- Modelled from the spec: `CREATE_TOKEN_SCHEMA`
(`src/resources/tokens/schema`, not under src/) — the json schema for
`POST /api/{version}/tokens` bodies, requiring the two string properties
`email` and `password`. -/
def CREATE_TOKEN_SCHEMA_required : List Json :=
  [.str "email", .str "password"]

/-- Modelled from the spec: the `properties` member of
`CREATE_TOKEN_SCHEMA` (email and password, both of type string). -/
def CREATE_TOKEN_SCHEMA_properties : Json :=
  .obj [("email", .obj [("type", .str "string")]),
        ("password", .obj [("type", .str "string")])]

/-- Whether a json value satisfies `CREATE_TOKEN_SCHEMA`: an object
carrying string members under both required keys. -/
def validCreateTokenBody (body : Json) : Bool :=
  match body with
  | .obj kvs =>
    (match kvs.lookup "email" with
     | some (.str _) => true
     | _ => false) &&
    (match kvs.lookup "password" with
     | some (.str _) => true
     | _ => false)
  | _ => false

/-- Modelled from the spec: `jsonschema.validate(body, CREATE_TOKEN_SCHEMA)`
(external library) — raises a `ValidationError` carrying the failing
schema exactly when the body violates the schema. -/
def validate_create_token (body : Json) : Except String Unit :=
  if validCreateTokenBody body then .ok ()
  else .error "body does not satisfy CREATE_TOKEN_SCHEMA"

/-- Python `body[k]` subscript on a json-decoded value. -/
def pyIndex (j : Json) (k : String) : Except HandlerError Json :=
  match j with
  | .obj kvs =>
    match kvs.lookup k with
    | some v => .ok v
    | none => .error (.nameError k)
  | _ => .error (.attributeError "getitem")

/-- Handler `create_token` of `src/custom_api/tokens.py`
(`POST /api/{version}/tokens`): `json.loads(request.data)` runs outside
any try block, so a json decode failure escapes as an uncaught exception;
a schema violation raises a 400 `errors.validationError` whose context
echoes the `required` and `properties` of the failing schema; on a valid body
the handler builds `{email, password}` credentials, calls
`ErtisTokenService.craft_token` and returns the dumped `token` object as
a json 200 response. -/
def create_token (env : Env) (st : Settings) (req : Request) :
    Except HandlerError Response :=
  match env.json_loads req.data with
  | .error m => .error (.valueError m)
  | .ok body =>
    match validate_create_token body with
    | .error msg =>
      .error (.ertis
        { err_code := "errors.validationError",
          err_msg := msg,
          status_code := 400,
          context := [("required", .arr CREATE_TOKEN_SCHEMA_required),
                      ("properties", CREATE_TOKEN_SCHEMA_properties)] })
    | .ok _ =>
      match pyIndex body "email" with
      | .error pe => .error pe
      | .ok email =>
        match pyIndex body "password" with
        | .error pe => .error pe
        | .ok password =>
          let credentials : Credentials := ⟨email, password⟩
          match env.craft_token credentials st.application_secret st.token_ttl with
          | .error e => .error (.ertis e)
          | .ok token =>
            .ok { body := env.json_dumps (.obj [("token", .str token)]),
                  mimetype := some "application/json",
                  status := 200 }

/-- Handler `refresh_token` of `src/custom_api/tokens.py`
(`POST /api/{version}/tokens/refresh`): `json.loads` inside a try block
turning a parse failure into a 400 `errors.badRequest`; the token lookup
via `body.get` (an `AttributeError` on a non-object body); a falsy token
raises a 400 `errors.tokenRequired`; a `load_user` failure
propagates unchanged; on success `ErtisTokenService.refresh_token` issues
a new token returned as a dumped json object with status 201. -/
def refresh_token (env : Env) (st : Settings) (req : Request) :
    Except HandlerError Response :=
  match env.json_loads req.data with
  | .error m =>
    .error (.ertis
      { err_code := "errors.badRequest",
        err_msg := "Invalid json provided",
        status_code := 400,
        context := [("message", .str m)] })
  | .ok body =>
    match pyGet body "token" with
    | .error pe => .error pe
    | .ok tokenOpt =>
      match tokenOpt with
      | none =>
        .error (.ertis
          { err_code := "errors.tokenRequired",
            err_msg := "Token is required",
            status_code := 400 })
      | some token =>
        if !token.truthy then
          .error (.ertis
            { err_code := "errors.tokenRequired",
              err_msg := "Token is required",
              status_code := 400 })
        else
          match env.load_user token st.application_secret st.verify_token with
          | .error e => .error (.ertis e)
          | .ok user =>
            let new_token := env.refresh_token_svc user
              st.application_secret st.token_ttl
            Except.ok
              { body := env.json_dumps (.obj [("token", .str new_token)]),
                mimetype := some "application/json",
                status := 201 }

/-- Modelled from the spec: the security manager
(`ErtisSecurityManager.load_user`, not under src/) surfaces every codec
or lookup failure as an authentication failure with HTTP status 401. -/
def SecurityManagerSpec (env : Env) : Prop :=
  ∀ t s v e, env.load_user t s v = .error e → e.status_code = 401

/-- Whether a json value is an object (a Python dict after decoding). -/
def Json.isObj : Json → Bool
  | .obj _ => true
  | _ => false

/-! Concrete fixtures used by witnesses and counterexamples: a sample
environment whose external collaborators behave like the real ones on the
inputs exercised, sample settings, descriptors and requests. -/

/-- A sample resolved user. -/
def u0 : User := ⟨"u1", "a@b.com"⟩

/-- A sample authentication failure from the security manager. -/
def e401 : ErtisError :=
  { err_code := "errors.tokenIsInvalid", err_msg := "invalid token",
    status_code := 401 }

/-- A sample parsed query specification. -/
def q0 : QuerySpec := ⟨.null, .null, 50, .null, 0⟩

/-- A sample environment.  `json_loads` follows the real json library on
the payload names used below (`payload_num` stands for the request body
"5", a well-formed json number); `load_user` accepts exactly the token
"tok1"; service results are fixed strings. -/
def env0 : Env :=
  { json_loads := fun s =>
      if s = "payload_with_token" then .ok (.obj [("token", .str "tok1")])
      else if s = "payload_empty_token" then .ok (.obj [("token", .str "")])
      else if s = "payload_no_token" then .ok (.obj [("k", .num 1)])
      else if s = "payload_num" then .ok (.num 5)
      else if s = "payload_credentials" then
        .ok (.obj [("email", .str "a@b.com"), ("password", .str "pw")])
      else if s = "payload_missing_password" then
        .ok (.obj [("email", .str "a@b.com")])
      else .error "Expecting value: line 1 column 1 (char 0)",
    json_dumps := fun j =>
      match j with
      | .obj [("token", .str t)] => "token object carrying " ++ t
      | _ => "other json",
    load_user := fun t _ _ =>
      match t with
      | .str "tok1" => .ok u0
      | _ => .error e401,
    craft_token := fun _ _ _ => .ok "crafted-token",
    refresh_token_svc := fun _ _ _ => "refreshed-token",
    query_parse := fun _ => q0,
    svc_filter := fun _ _ => "filtered",
    svc_get := fun _ _ => "got",
    svc_post := fun _ _ _ _ _ => "posted",
    svc_put := fun _ _ _ _ _ _ => "updated",
    svc_delete := fun _ _ _ => "deleted" }

/-- Sample settings. -/
def st0 : Settings :=
  { application_secret := "secret", verify_token := true,
    api_version := "v1", token_ttl := 3600 }

/-- A sample non-anonymous descriptor exposing all five endpoint kinds. -/
def d0 : Descriptor :=
  { endpoint_root := "/api/v1/users",
    methods := ["QUERY", "GET", "POST", "PUT", "DELETE"],
    resource_name := "users" }

/-- The anonymous variant of `d0`. -/
def dAnon : Descriptor := { d0 with allow_to_anonymous := true }

/-- A descriptor allowing only GET. -/
def dGet : Descriptor :=
  { endpoint_root := "/api/v1/items", methods := ["GET"],
    resource_name := "items" }

/-- A request carrying a well-formed bearer header for the accepted token. -/
def reqAuthOK : Request := ⟨some "Bearer tok1", "raw-data"⟩

/-- A request with no Authorization header. -/
def reqNoAuth : Request := ⟨none, "raw-data"⟩

/-- A request whose Authorization header is present but empty. -/
def reqEmptyAuth : Request := ⟨some "", "raw-data"⟩

/-- A request whose Authorization header has a single part. -/
def reqOnePart : Request := ⟨some "Bearertok1", "raw-data"⟩

/-- A request whose body decodes to the json number 5. -/
def reqNumBody : Request := ⟨none, "payload_num"⟩

/-- A request whose body is not valid json. -/
def reqBadJson : Request := ⟨none, "definitely not json"⟩

/-- A request whose body decodes to an object carrying the token "tok1". -/
def reqTokenBody : Request := ⟨none, "payload_with_token"⟩

/-- A request whose body decodes to valid credentials. -/
def reqCredsBody : Request := ⟨none, "payload_credentials"⟩

/-- A request whose body decodes to credentials missing the password. -/
def reqNoPassBody : Request := ⟨none, "payload_missing_password"⟩

/-! Helper lemmas. -/

/-- String concatenation is left-cancellative. -/
theorem string_append_cancel_left {s a b : String} (h : s ++ a = s ++ b) :
    a = b := by
  apply String.ext
  have hd : s.data ++ a.data = s.data ++ b.data := by
    rw [← String.data_append, ← String.data_append, h]
  exact List.append_cancel_left hd

/-- Membership in a conditional singleton registration block. -/
theorem mem_if_singleton {α : Type} (c : Prop) [Decidable c] (x r : α) :
    r ∈ (if c then [x] else []) ↔ c ∧ r = x := by
  by_cases h : c <;> simp [h]

/-- Distinct endpoint kinds register distinct routes for one descriptor:
their stamped endpoint names differ. -/
theorem tagRoute_inj (d : Descriptor) {t u : MethodTag}
    (h : tagRoute d t = tagRoute d u) : t = u := by
  cases t <;> cases u <;>
    first
      | rfl
      | (exfalso
         have hn := congrArg Route.endpoint_name h
         simp only [tagRoute] at hn
         have := string_append_cancel_left hn
         simp at this)

/-- Claim C1: on every generated endpoint of a non-anonymous descriptor,
the auth gate (`ensure_token_provided`) is the first event of the
handler, so the bearer token is resolved before any resource-service
call; and when the gate fails, the handler returns that error with a
trace containing no service call at all. -/
theorem auth_gate_before_service (tag : MethodTag) (env : Env) (st : Settings)
    (d : Descriptor) (req : Request) (rid : String)
    (hanon : d.allow_to_anonymous = false) :
    (handle tag env st d req rid).1.head? = some Event.auth ∧
    ∀ e, ensure_token_provided env req d.resource_name
        st.application_secret st.verify_token = .error e →
      handle tag env st d req rid = ([Event.auth], .error (.ertis e)) := by
  refine ⟨?_, fun e he => ?_⟩
  · cases tag <;>
      · simp only [handle, query, read, create, update, delete, hanon,
          Bool.false_eq_true, if_false]
        cases h : ensure_token_provided env req d.resource_name
            st.application_secret st.verify_token <;> simp [h]
  · cases tag <;>
      simp [handle, query, read, create, update, delete, hanon, he]

/-- Applies C1 at a concrete endpoint: the GET handler of the sample
descriptor, on a request with no Authorization header, runs the gate
first and returns its 401 without touching the service. -/
theorem auth_gate_before_service_witness :
    (handle MethodTag.GET env0 st0 d0 reqNoAuth "42").1.head? = some Event.auth ∧
    handle MethodTag.GET env0 st0 d0 reqNoAuth "42" =
      ([Event.auth],
       .error (.ertis
         { err_code := "errors.authorizationHeaderRequired",
           err_msg := "Authorization header is required for using this api<users>",
           status_code := 401 })) := by
  have h := auth_gate_before_service MethodTag.GET env0 st0 d0 reqNoAuth "42" rfl
  exact ⟨h.1, h.2 _ rfl⟩

/-- Claim C2 fails as stated: an Authorization header that is present but
empty does not split into two tokens, yet the gate raises
`errors.authorizationHeaderRequired` (the missing-header error), not the
malformed-header error `errors.invalidBearerTokenUsage` the claim
requires for every badly-split header. -/
theorem auth_header_gate_cex :
    reqEmptyAuth.authorization = some "" ∧
    (pySplit "" ' ').length ≠ 2 ∧
    ensure_token_provided env0 reqEmptyAuth "users" "secret" true =
      .error
        { err_code := "errors.authorizationHeaderRequired",
          err_msg := "Authorization header is required for using this api<users>",
          status_code := 401 } ∧
    "errors.authorizationHeaderRequired" ≠ "errors.invalidBearerTokenUsage" := by
  exact ⟨rfl, by decide, rfl, by decide⟩

/-- Claim C2 (amended): an absent — or present but empty — Authorization
header fails with the 401 `errors.authorizationHeaderRequired` error; a
non-empty header whose split on the space character does not have exactly
two parts fails with the 401 `errors.invalidBearerTokenUsage` error;
otherwise the gate returns exactly what `load_user` of the security
manager returns on the second part (the credential). -/
theorem auth_header_gate (env : Env) (req : Request) (api : String)
    (secret : String) (verify : Bool) :
    ((req.authorization = none ∨ req.authorization = some "") →
      ensure_token_provided env req api secret verify =
        .error
          { err_code := "errors.authorizationHeaderRequired",
            err_msg := "Authorization header is required for using this api<"
              ++ api ++ ">",
            status_code := 401 }) ∧
    (∀ hdr, req.authorization = some hdr → hdr ≠ "" →
      ((pySplit hdr ' ').length ≠ 2 →
        ensure_token_provided env req api secret verify =
          .error
            { err_code := "errors.invalidBearerTokenUsage",
              err_msg := "Bearer token usage is invalid",
              status_code := 401 }) ∧
      (∀ scheme cred, pySplit hdr ' ' = [scheme, cred] →
        ensure_token_provided env req api secret verify =
          env.load_user (.str cred) secret verify)) := by
  constructor
  · rintro (hn | hn) <;> simp [ensure_token_provided, hn]
  · intro hdr hh hne
    constructor
    · intro hlen
      simp only [ensure_token_provided, hh, hne, if_false]
      rcases hsp : pySplit hdr ' ' with _ | ⟨a, _ | ⟨b, _ | ⟨c, l⟩⟩⟩ <;>
        simp_all [hsp]
    · intro scheme cred hsp
      simp [ensure_token_provided, hh, hne, hsp]

/-- Applies the amended C2 at concrete requests: a missing header, a
single-part header, and a well-formed header whose credential reaches
`load_user`. -/
theorem auth_header_gate_witness :
    ensure_token_provided env0 reqNoAuth "users" "secret" true =
      .error
        { err_code := "errors.authorizationHeaderRequired",
          err_msg := "Authorization header is required for using this api<users>",
          status_code := 401 } ∧
    ensure_token_provided env0 reqOnePart "users" "secret" true =
      .error
        { err_code := "errors.invalidBearerTokenUsage",
          err_msg := "Bearer token usage is invalid",
          status_code := 401 } ∧
    ensure_token_provided env0 reqAuthOK "users" "secret" true =
      env0.load_user (.str "tok1") "secret" true := by
  refine ⟨?_, ?_, ?_⟩
  · exact (auth_header_gate env0 reqNoAuth "users" "secret" true).1 (Or.inl rfl)
  · exact (((auth_header_gate env0 reqOnePart "users" "secret" true).2
      "Bearertok1" rfl (by decide)).1 (by decide))
  · exact (((auth_header_gate env0 reqAuthOK "users" "secret" true).2
      "Bearer tok1" rfl (by decide)).2 "Bearer" "tok1" (by decide))

/-- Claim C3: `generate_endpoints` registers the route of an endpoint
kind exactly when the key of that kind is a member of the methods list
of the descriptor; every registered route is the route of such a kind; and a
descriptor whose methods list is exactly `GET` registers only the
read route. -/
theorem routes_iff_methods (d : Descriptor) :
    (∀ t : MethodTag,
      tagRoute d t ∈ generate_endpoints d ↔ tagKey t ∈ d.methods) ∧
    (∀ r, r ∈ generate_endpoints d →
      ∃ t : MethodTag, tagKey t ∈ d.methods ∧ r = tagRoute d t) ∧
    (d.methods = ["GET"] → generate_endpoints d = [tagRoute d .GET]) := by
  refine ⟨fun t => ⟨fun hmem => ?_, fun hk => ?_⟩, fun r hmem => ?_, fun hm => ?_⟩
  · simp only [generate_endpoints, List.mem_append, mem_if_singleton] at hmem
    rcases hmem with
      ((((⟨hk, he⟩ | ⟨hk, he⟩) | ⟨hk, he⟩) | ⟨hk, he⟩) | ⟨hk, he⟩) <;>
      · rw [tagRoute_inj d he]; exact hk
  · cases t <;>
      simp only [generate_endpoints, List.mem_append, mem_if_singleton] <;>
      [exact Or.inl (Or.inl (Or.inl (Or.inl ⟨hk, trivial⟩)));
       exact Or.inl (Or.inl (Or.inl (Or.inr ⟨hk, trivial⟩)));
       exact Or.inl (Or.inl (Or.inr ⟨hk, trivial⟩));
       exact Or.inl (Or.inr ⟨hk, trivial⟩);
       exact Or.inr ⟨hk, trivial⟩]
  · simp only [generate_endpoints, List.mem_append, mem_if_singleton] at hmem
    rcases hmem with
      ((((⟨hk, he⟩ | ⟨hk, he⟩) | ⟨hk, he⟩) | ⟨hk, he⟩) | ⟨hk, he⟩)
    · exact ⟨.QUERY, hk, he⟩
    · exact ⟨.GET, hk, he⟩
    · exact ⟨.POST, hk, he⟩
    · exact ⟨.PUT, hk, he⟩
    · exact ⟨.DELETE, hk, he⟩
  · simp [generate_endpoints, hm, tagRoute]

/-- Applies C3 at a concrete descriptor allowing only GET: the read route
is registered, the create route is not, and the whole registration list
is the single read route. -/
theorem routes_iff_methods_witness :
    tagRoute dGet .GET ∈ generate_endpoints dGet ∧
    tagRoute dGet .POST ∉ generate_endpoints dGet ∧
    generate_endpoints dGet = [tagRoute dGet .GET] := by
  refine ⟨?_, ?_, ?_⟩
  · exact ((routes_iff_methods dGet).1 .GET).mpr (by decide)
  · intro hmem
    have := ((routes_iff_methods dGet).1 .POST).mp hmem
    simp [dGet, tagKey] at this
  · exact (routes_iff_methods dGet).2.2 rfl

/-- Claim C4 fails as stated: on a non-anonymous DELETE request the gate
does resolve the user `u0`, yet the delegate call of the handler into
`resource_service.delete` carries no user argument at all — the source
discards the return value of the gate and `service.delete` has no user
parameter. -/
theorem user_threading_cex :
    ensure_token_provided env0 reqAuthOK d0.resource_name
      st0.application_secret st0.verify_token = .ok u0 ∧
    delete env0 st0 d0 reqAuthOK "42" =
      ([Event.auth, Event.svc (.delete "42" "users" none)],
       .ok { body := "deleted", mimetype := none, status := 204 }) ∧
    (ServiceCall.delete "42" "users" none).userArg = none ∧
    (none : Option User) ≠ some u0 := by
  exact ⟨rfl, rfl, rfl, by simp⟩

/-- Claim C4 (amended): on non-anonymous requests the resolved User is
passed as an argument into the POST and PUT delegate calls, while the
QUERY, GET and DELETE delegate calls do not receive the User. -/
theorem user_threading (tag : MethodTag) (env : Env) (st : Settings)
    (d : Descriptor) (req : Request) (rid : String) (u : User)
    (hanon : d.allow_to_anonymous = false)
    (hu : ensure_token_provided env req d.resource_name
      st.application_secret st.verify_token = .ok u) :
    ∀ c, Event.svc c ∈ (handle tag env st d req rid).1 →
      c.userArg =
        if tag = MethodTag.POST ∨ tag = MethodTag.PUT then some u else none := by
  intro c hc
  cases tag <;>
    · simp only [handle, query, read, create, update, delete, hanon,
        Bool.false_eq_true, if_false, hu] at hc
      simp only [List.mem_cons, List.mem_singleton, reduceCtorEq,
        Event.svc.injEq, false_or] at hc
      rcases hc with hc | hc
      · subst hc; rfl
      · simp at hc

/-- Applies the amended C4 on the sample descriptor: the PUT delegate
call carries the resolved user, the DELETE delegate call carries none. -/
theorem user_threading_witness :
    (ServiceCall.put u0 "42" "raw-data" "users" none none).userArg = some u0 ∧
    (ServiceCall.delete "42" "users" none).userArg = none := by
  constructor
  · exact user_threading MethodTag.PUT env0 st0 d0 reqAuthOK "42" u0 rfl rfl
      (ServiceCall.put u0 "42" "raw-data" "users" none none)
      (List.Mem.tail _ (List.Mem.head _))
  · exact user_threading MethodTag.DELETE env0 st0 d0 reqAuthOK "42" u0 rfl rfl
      (ServiceCall.delete "42" "users" none)
      (List.Mem.tail _ (List.Mem.head _))

/-- Claim C5 fails as stated: a successful DELETE response has no
mimetype — the source `Response(...)` call in the delete handler passes
no mimetype argument, so the Content-Type is not set to
application/json there. -/
theorem response_passthrough_cex :
    (delete env0 st0 d0 reqAuthOK "42").2 =
      .ok { body := "deleted", mimetype := none, status := 204 } ∧
    (none : Option String) ≠ some "application/json" := by
  exact ⟨rfl, by simp⟩

/-- Claim C5 (amended): every successful response of a generated
endpoint carries the returned value of the resource service as its body,
unmodified (the final trace event is the delegate call and the body is
exactly the result of that call); the QUERY, GET, POST and PUT handlers set
the application/json mimetype, while the DELETE handler sets none. -/
theorem response_passthrough (tag : MethodTag) (env : Env) (st : Settings)
    (d : Descriptor) (req : Request) (rid : String) (r : Response)
    (hok : (handle tag env st d req rid).2 = .ok r) :
    (∃ c, (handle tag env st d req rid).1.getLast? = some (Event.svc c) ∧
      r.body = env.svcResult c) ∧
    r.mimetype =
      (if tag = MethodTag.DELETE then none else some "application/json") := by
  cases tag <;>
    · simp only [handle, query, read, create, update, delete] at hok ⊢
      rcases hb : d.allow_to_anonymous with _ | _ <;>
        simp only [hb, Bool.false_eq_true, if_false, if_true] at hok ⊢
      · cases h : ensure_token_provided env req d.resource_name
            st.application_secret st.verify_token <;>
          simp only [h] at hok ⊢ <;>
          first
            | (subst hok; exact ⟨⟨_, rfl, rfl⟩, rfl⟩)
            | (simp at hok <;> (subst hok; exact ⟨⟨_, rfl, rfl⟩, rfl⟩))
      · first
          | (subst hok; exact ⟨⟨_, rfl, rfl⟩, rfl⟩)
          | (simp at hok <;> (subst hok; exact ⟨⟨_, rfl, rfl⟩, rfl⟩))

/-- Applies the amended C5 at a concrete successful QUERY request: the
body is the result of the filter delegate and the mimetype is json. -/
theorem response_passthrough_witness :
    ((Response.mk "filtered" (some "application/json") 200).body =
      env0.svcResult (.filter q0 "users")) ∧
    (Response.mk "filtered" (some "application/json") 200).mimetype =
      some "application/json" := by
  have h := response_passthrough MethodTag.QUERY env0 st0 d0 reqAuthOK "x"
    (Response.mk "filtered" (some "application/json") 200) rfl
  exact ⟨rfl, h.2⟩

/-- Claim C6: every successful response of a generated endpoint carries
the fixed per-method status code: 200 for QUERY, 200 for GET, 201 for
POST, 200 for PUT and 204 for DELETE. -/
theorem success_status_codes (tag : MethodTag) (env : Env) (st : Settings)
    (d : Descriptor) (req : Request) (rid : String) (r : Response)
    (hok : (handle tag env st d req rid).2 = .ok r) :
    r.status =
      (match tag with
       | .QUERY => 200
       | .GET => 200
       | .POST => 201
       | .PUT => 200
       | .DELETE => 204) := by
  cases tag <;>
    · simp only [handle, query, read, create, update, delete] at hok
      rcases hb : d.allow_to_anonymous with _ | _ <;>
        simp only [hb, Bool.false_eq_true, if_false, if_true] at hok
      · cases h : ensure_token_provided env req d.resource_name
            st.application_secret st.verify_token <;>
          simp only [h] at hok <;>
          first
            | (subst hok; rfl)
            | (simp at hok <;> (subst hok; rfl))
      · first
          | (subst hok; rfl)
          | (simp at hok <;> (subst hok; rfl))

/-- Applies C6 at concrete successful POST and DELETE requests. -/
theorem success_status_codes_witness :
    (Response.mk "posted" (some "application/json") 201).status = 201 ∧
    (Response.mk "deleted" none 204).status = 204 := by
  constructor
  · exact success_status_codes MethodTag.POST env0 st0 d0 reqAuthOK "x"
      (Response.mk "posted" (some "application/json") 201) rfl
  · exact success_status_codes MethodTag.DELETE env0 st0 d0 reqAuthOK "42"
      (Response.mk "deleted" none 204) rfl

/-- Claim C7 fails as stated: the body "5" is valid json with no token
field, so the claim requires the 400 `errors.tokenRequired` failure, but
so the token lookup on the decoded number raises an uncaught attribute
error instead of any structured `ErtisError`. -/
theorem refresh_token_contract_cex :
    env0.json_loads reqNumBody.data = .ok (.num 5) ∧
    refresh_token env0 st0 reqNumBody = .error (.attributeError "get") ∧
    ∀ e : ErtisError, HandlerError.attributeError "get" ≠ .ertis e := by
  refine ⟨rfl, rfl, fun e h => ?_⟩
  cases h

/-- Claim C7 (amended): on `POST /api/{version}/tokens/refresh`, a body
that is not valid json fails with the 400 `errors.badRequest` error; a
json-object body whose token member is absent or falsy fails with the
400 `errors.tokenRequired` error (a valid-json non-object body instead
raises an uncaught attribute error); a token rejected by the security
manager propagates that rejection unchanged — a 401 under the
spec-modelled security manager; otherwise the handler returns the
dumped object carrying the new token, with status 201. -/
theorem refresh_token_contract (env : Env) (st : Settings) (req : Request) :
    (∀ m, env.json_loads req.data = .error m →
      refresh_token env st req = .error (.ertis
        { err_code := "errors.badRequest", err_msg := "Invalid json provided",
          status_code := 400, context := [("message", .str m)] })) ∧
    (∀ b, env.json_loads req.data = .ok b → b.isObj = false →
      refresh_token env st req = .error (.attributeError "get")) ∧
    (∀ kvs, env.json_loads req.data = .ok (.obj kvs) →
      ((kvs.lookup "token" = none →
        refresh_token env st req = .error (.ertis
          { err_code := "errors.tokenRequired", err_msg := "Token is required",
            status_code := 400 })) ∧
       (∀ t, kvs.lookup "token" = some t → t.truthy = false →
        refresh_token env st req = .error (.ertis
          { err_code := "errors.tokenRequired", err_msg := "Token is required",
            status_code := 400 })) ∧
       (∀ t, kvs.lookup "token" = some t → t.truthy = true →
        ((∀ e, env.load_user t st.application_secret st.verify_token = .error e →
          refresh_token env st req = .error (.ertis e) ∧
          (SecurityManagerSpec env → e.status_code = 401)) ∧
         (∀ u, env.load_user t st.application_secret st.verify_token = .ok u →
          refresh_token env st req = .ok
            { body := env.json_dumps (.obj [("token",
                .str (env.refresh_token_svc u st.application_secret st.token_ttl))]),
              mimetype := some "application/json",
              status := 201 }))))) := by
  refine ⟨fun m hm => ?_, fun b hb hobj => ?_, fun kvs hk => ⟨fun hn => ?_,
    fun t ht hf => ?_, fun t ht htr => ⟨fun e he => ⟨?_, fun hsm => hsm _ _ _ _ he⟩,
    fun u hu => ?_⟩⟩⟩
  · simp [refresh_token, hm]
  · cases b <;> simp_all [refresh_token, pyGet, Json.isObj]
  · simp [refresh_token, hk, pyGet, hn]
  · simp [refresh_token, hk, pyGet, ht, hf]
  · simp [refresh_token, hk, pyGet, ht, htr, he]
  · simp [refresh_token, hk, pyGet, ht, htr, hu]

/-- Applies the amended C7 at concrete requests: a non-json body, a body
with an empty token, and a body whose token the sample security manager
accepts. -/
theorem refresh_token_contract_witness :
    refresh_token env0 st0 reqBadJson = .error (.ertis
      { err_code := "errors.badRequest", err_msg := "Invalid json provided",
        status_code := 400,
        context := [("message", .str "Expecting value: line 1 column 1 (char 0)")] }) ∧
    refresh_token env0 st0 ⟨none, "payload_empty_token"⟩ = .error (.ertis
      { err_code := "errors.tokenRequired", err_msg := "Token is required",
        status_code := 400 }) ∧
    refresh_token env0 st0 reqTokenBody = .ok
      { body := "token object carrying refreshed-token",
        mimetype := some "application/json", status := 201 } := by
  refine ⟨?_, ?_, ?_⟩
  · exact (refresh_token_contract env0 st0 reqBadJson).1 _ rfl
  · exact ((refresh_token_contract env0 st0 ⟨none, "payload_empty_token"⟩).2.2
      [("token", .str "")] rfl).2.1 (.str "") rfl rfl
  · exact (((refresh_token_contract env0 st0 reqTokenBody).2.2
      [("token", .str "tok1")] rfl).2.2 (.str "tok1") rfl rfl).2 u0 rfl

/-- Claim C8: on `POST /api/{version}/tokens`, a json body violating the
create-token schema fails with the 400 `errors.validationError` error
whose context carries the required fields and properties of the schema; a
valid body is turned into `{email, password}` credentials handed to
`craft_token`, and when crafting succeeds the handler returns the dumped
token object with status 200. -/
theorem create_token_contract (env : Env) (st : Settings) (req : Request) :
    (∀ b, env.json_loads req.data = .ok b → validCreateTokenBody b = false →
      create_token env st req = .error (.ertis
        { err_code := "errors.validationError",
          err_msg := "body does not satisfy CREATE_TOKEN_SCHEMA",
          status_code := 400,
          context := [("required", .arr CREATE_TOKEN_SCHEMA_required),
                      ("properties", CREATE_TOKEN_SCHEMA_properties)] })) ∧
    (∀ kvs em pw, env.json_loads req.data = .ok (.obj kvs) →
      kvs.lookup "email" = some (.str em) →
      kvs.lookup "password" = some (.str pw) →
      ∀ tok, env.craft_token ⟨.str em, .str pw⟩
          st.application_secret st.token_ttl = .ok tok →
        create_token env st req = .ok
          { body := env.json_dumps (.obj [("token", .str tok)]),
            mimetype := some "application/json",
            status := 200 }) := by
  refine ⟨fun b hb hv => ?_, fun kvs em pw hb he hp tok hc => ?_⟩
  · simp [create_token, hb, validate_create_token, hv]
  · have hv : validCreateTokenBody (.obj kvs) = true := by
      simp [validCreateTokenBody, he, hp]
    simp [create_token, hb, validate_create_token, hv, pyIndex, he, hp, hc]

/-- Applies C8 at concrete requests: a body missing the password fails
with the 400 validation error echoing the schema, and a valid body
yields the crafted token with status 200. -/
theorem create_token_contract_witness :
    create_token env0 st0 reqNoPassBody = .error (.ertis
      { err_code := "errors.validationError",
        err_msg := "body does not satisfy CREATE_TOKEN_SCHEMA",
        status_code := 400,
        context := [("required", .arr CREATE_TOKEN_SCHEMA_required),
                    ("properties", CREATE_TOKEN_SCHEMA_properties)] }) ∧
    create_token env0 st0 reqCredsBody = .ok
      { body := "token object carrying crafted-token",
        mimetype := some "application/json", status := 200 } := by
  constructor
  · exact (create_token_contract env0 st0 reqNoPassBody).1
      (.obj [("email", .str "a@b.com")]) rfl rfl
  · exact (create_token_contract env0 st0 reqCredsBody).2
      [("email", .str "a@b.com"), ("password", .str "pw")]
      "a@b.com" "pw" rfl rfl rfl "crafted-token" rfl

/-- Claim C9: on an anonymous descriptor, every request to the generated
create or update endpoint raises the unbound-local error on `user`
before any resource-service call — the trace is empty, so anonymous
POST/PUT can never reach the resource service. -/
theorem anonymous_mutation_unbound (env : Env) (st : Settings)
    (d : Descriptor) (req : Request) (rid : String)
    (hanon : d.allow_to_anonymous = true) :
    create env st d req = ([], .error (.nameError "user")) ∧
    update env st d req rid = ([], .error (.nameError "user")) := by
  constructor <;> simp [create, update, hanon]

/-- Applies C9 at the anonymous sample descriptor. -/
theorem anonymous_mutation_unbound_witness :
    create env0 st0 dAnon reqAuthOK = ([], .error (.nameError "user")) ∧
    update env0 st0 dAnon reqAuthOK "42" = ([], .error (.nameError "user")) :=
  anonymous_mutation_unbound env0 st0 dAnon reqAuthOK "42" rfl

/-- Claim C10: a request body that is not valid json makes `create_token`
raise the uncaught decode error — not a structured `ErtisError` — while
`refresh_token` converts the same parse failure into the structured 400
`errors.badRequest` error. -/
theorem create_token_uncaught_decode (env : Env) (st : Settings)
    (req : Request) (m : String)
    (hm : env.json_loads req.data = .error m) :
    create_token env st req = .error (.valueError m) ∧
    (∀ e : ErtisError, HandlerError.valueError m ≠ .ertis e) ∧
    refresh_token env st req = .error (.ertis
      { err_code := "errors.badRequest", err_msg := "Invalid json provided",
        status_code := 400, context := [("message", .str m)] }) := by
  refine ⟨?_, fun e h => ?_, ?_⟩
  · simp [create_token, hm]
  · cases h
  · simp [refresh_token, hm]

/-- Applies C10 at a concrete request whose body is not json. -/
theorem create_token_uncaught_decode_witness :
    create_token env0 st0 reqBadJson =
      .error (.valueError "Expecting value: line 1 column 1 (char 0)") ∧
    refresh_token env0 st0 reqBadJson = .error (.ertis
      { err_code := "errors.badRequest", err_msg := "Invalid json provided",
        status_code := 400,
        context := [("message",
          .str "Expecting value: line 1 column 1 (char 0)")] }) := by
  have h := create_token_uncaught_decode env0 st0 reqBadJson
    "Expecting value: line 1 column 1 (char 0)" rfl
  exact ⟨h.1, h.2.2⟩

end Ertis
